import Mathlib

/-!
Shallow embedding of the countdown timer engine of `src/src/Countdown.vue`
(ofcold/countdown, a Vue 3 countdown component), and proofs of the spec's
claims about it.

Modelling decisions, each tied to the source:

* JavaScript numbers are modelled as `Int`: every quantity the component
  manipulates (`time`, `interval`, `totalMilliseconds`, `endTime`, clock
  readings) is an integer millisecond count in all the spec's scenarios, and
  `Int` keeps the sign behaviour of `data.totalMilliseconds -= interval`
  (which can drive the value below zero transiently) that `Nat` truncation
  would hide.
* `Math.floor(a / b)` on integers with positive `b` is `Int.fdiv`
  (floor division); the JavaScript remainder `a % b` (sign of the dividend)
  is `Int.tmod`.
* The reactive `data` object (`CountdownInterface` in the source) becomes the
  structure `CountdownData`.  The `requestId` field only matters through
  whether a `requestAnimationFrame` callback is currently scheduled, so it is
  modelled as the Boolean `pending` (`continuance` sets it when it schedules,
  `pause` = `cancelAnimationFrame` clears it).
* `emit` becomes an explicit event trace: each operation returns the updated
  state together with the list of events it emitted, in emission order.
* The clock prop `now` is a function; each operation that calls it
  (`watchEffect`, `update`) instead receives the current reading `nowv` as an
  argument.  `document.visibilityState` likewise becomes an explicit
  `Visibility` argument.
* The `requestAnimationFrame` step loop inside `continuance` only decides
  *when* `progress()` fires (the drift-corrected scheduling), not *what* it
  does; a scheduled loop that keeps receiving frames fires `progress` exactly
  once.  The function `run` therefore models letting the scheduler run:
  while a frame is pending and the engine is counting, fire `progress` (which
  itself reschedules or ends via its trailing `continuance`).
-/

/-- Events emitted by the component.  The source's `end` event is named
`ended` here because `end` is a Lean keyword; `progress` carries the
`totalMilliseconds` payload field of the emitted breakdown object. -/
inductive Event where
  | start : Event
  | progress : Int → Event
  | abort : Event
  | ended : Event
deriving DecidableEq, Repr

/-- Holds `true` when the event is a `progress` event. -/
def Event.isProgress : Event → Bool
  | .progress _ => true
  | _ => false

/-- Host visibility state (`document.visibilityState`). -/
inductive Visibility where
  | visible : Visibility
  | hidden : Visibility
deriving DecidableEq, Repr

/-- The component's props that the engine reads (the `now` clock prop is
passed as an explicit argument to the operations that call it). -/
structure Config where
  autoStart : Bool
  emitEvents : Bool
  interval : Int
  time : Int
deriving DecidableEq, Repr

/-- The reactive engine state (`CountdownInterface` / `data` in the source);
`pending` abstracts `requestId`: whether a frame callback is scheduled. -/
structure CountdownData where
  counting : Bool
  endTime : Int
  totalMilliseconds : Int
  pending : Bool
deriving DecidableEq, Repr

/-- Initial state, from `reactive({counting: false, endTime: 0, totalMilliseconds: 0, requestId: 0})`. -/
def initData : CountdownData :=
  { counting := false, endTime := 0, totalMilliseconds := 0, pending := false }

def MILLISECONDS_SECOND : Int := 1000
def MILLISECONDS_MINUTE : Int := 60 * MILLISECONDS_SECOND
def MILLISECONDS_HOUR : Int := 60 * MILLISECONDS_MINUTE
def MILLISECONDS_DAY : Int := 24 * MILLISECONDS_HOUR

/-- Source: `days = Math.floor(totalMilliseconds / MILLISECONDS_DAY)` -/
def days (tm : Int) : Int := Int.fdiv tm MILLISECONDS_DAY

/-- Source: `hours = Math.floor((totalMilliseconds % MILLISECONDS_DAY) / MILLISECONDS_HOUR)` -/
def hours (tm : Int) : Int := Int.fdiv (Int.tmod tm MILLISECONDS_DAY) MILLISECONDS_HOUR

/-- Source: `minutes = Math.floor((totalMilliseconds % MILLISECONDS_HOUR) / MILLISECONDS_MINUTE)` -/
def minutes (tm : Int) : Int := Int.fdiv (Int.tmod tm MILLISECONDS_HOUR) MILLISECONDS_MINUTE

/-- Source: `seconds = Math.floor((totalMilliseconds % MILLISECONDS_MINUTE) / MILLISECONDS_SECOND)` -/
def seconds (tm : Int) : Int := Int.fdiv (Int.tmod tm MILLISECONDS_MINUTE) MILLISECONDS_SECOND

/-- Source: `milliseconds = Math.floor(totalMilliseconds % MILLISECONDS_SECOND)` -/
def milliseconds (tm : Int) : Int := Int.tmod tm MILLISECONDS_SECOND

/-- Source: `totalHours = Math.floor(totalMilliseconds / MILLISECONDS_HOUR)` -/
def totalHours (tm : Int) : Int := Int.fdiv tm MILLISECONDS_HOUR

/-- Source: `totalMinutes = Math.floor(totalMilliseconds / MILLISECONDS_MINUTE)` -/
def totalMinutes (tm : Int) : Int := Int.fdiv tm MILLISECONDS_MINUTE

/-- Source: `totalSeconds = Math.floor(totalMilliseconds / MILLISECONDS_SECOND)` -/
def totalSeconds (tm : Int) : Int := Int.fdiv tm MILLISECONDS_SECOND

/-- The prop validator of `interval`: `(value: number) => value >= 0`.
In Vue, a prop validator returning `false` produces a development-mode console
warning only: the prop value is still assigned and used unchanged. -/
def interval_validator (value : Int) : Bool := decide (value ≥ 0)

/-- The prop validator of `time`: `(value: number) => value >= 0` (same Vue
warning-only semantics as `interval_validator`). -/
def time_validator (value : Int) : Bool := decide (value ≥ 0)

/-- Source `pause()`: `cancelAnimationFrame(data.requestId)`. -/
def pause (s : CountdownData) : CountdownData := { s with pending := false }

/-- Source `end()`: no-op unless counting; cancels the frame, zeroes
`totalMilliseconds`, clears `counting`, emits `end` when `emitEvents`. -/
def endCountdown (cfg : Config) (s : CountdownData) : CountdownData × List Event :=
  if s.counting then
    let s1 := pause s
    let s2 := { s1 with totalMilliseconds := 0, counting := false }
    (s2, if cfg.emitEvents then [Event.ended] else [])
  else (s, [])

/-- Source `continuance()`: no-op unless counting; `delay = min(totalMilliseconds,
interval)`; when `delay > 0` it schedules a frame step (modelled by setting
`pending`), otherwise it calls `end()`. -/
def continuance (cfg : Config) (s : CountdownData) : CountdownData × List Event :=
  if s.counting then
    let delay := min s.totalMilliseconds cfg.interval
    if delay > 0 then ({ s with pending := true }, [])
    else endCountdown cfg s
  else (s, [])

/-- Source `progress()`: no-op unless counting; decrements `totalMilliseconds` by
`interval`; emits `progress` when `emitEvents` and the new value is `> 0`;
then calls `continuance()`. -/
def progress (cfg : Config) (s : CountdownData) : CountdownData × List Event :=
  if s.counting then
    let s1 := { s with totalMilliseconds := s.totalMilliseconds - cfg.interval }
    let evs :=
      if cfg.emitEvents ∧ s1.totalMilliseconds > 0 then
        [Event.progress s1.totalMilliseconds]
      else []
    let r := continuance cfg s1
    (r.1, evs ++ r.2)
  else (s, [])

/-- Source `start()`: no-op when already counting; sets `counting`, emits `start`
when `emitEvents`, and calls `continuance()` only when
`document.visibilityState === 'visible'`.  Note the source's `start` never
touches `endTime`. -/
def start (cfg : Config) (vis : Visibility) (s : CountdownData) :
    CountdownData × List Event :=
  if s.counting then (s, [])
  else
    let s1 := { s with counting := true }
    let evs := if cfg.emitEvents then [Event.start] else []
    if vis = Visibility.visible then
      let r := continuance cfg s1
      (r.1, evs ++ r.2)
    else (s1, evs)

/-- Source `abort()`: no-op unless counting; cancels the frame, clears `counting`,
emits `abort` when `emitEvents`; `totalMilliseconds` is left unchanged. -/
def abort (cfg : Config) (s : CountdownData) : CountdownData × List Event :=
  if s.counting then
    let s1 := pause s
    let s2 := { s1 with counting := false }
    (s2, if cfg.emitEvents then [Event.abort] else [])
  else (s, [])

/-- Source `update()`: while counting, `totalMilliseconds = Math.max(0, endTime -
now())`; `nowv` is the clock reading `now()` returns. -/
def update (nowv : Int) (s : CountdownData) : CountdownData :=
  if s.counting then { s with totalMilliseconds := max 0 (s.endTime - nowv) }
  else s

/-- Source `handleVisibilityChange()`: on `visible`, `update()` then `continuance()`;
on `hidden`, `pause()`. -/
def handleVisibilityChange (cfg : Config) (vis : Visibility) (nowv : Int)
    (s : CountdownData) : CountdownData × List Event :=
  match vis with
  | Visibility.visible =>
      let s1 := update nowv s
      continuance cfg s1
  | Visibility.hidden => (pause s, [])

/-- The `watchEffect` body (configuration): sets `totalMilliseconds = time`
and `endTime = now() + time`, then calls `start()` when `autoStart`.  Since
the props are destructured in `setup`, it runs once at setup time. -/
def configure (cfg : Config) (nowv : Int) (vis : Visibility) (s : CountdownData) :
    CountdownData × List Event :=
  let s1 := { s with totalMilliseconds := cfg.time, endTime := nowv + cfg.time }
  if cfg.autoStart then start cfg vis s1 else (s1, [])

/-- Lets the scheduler run for at most `fuel` completed loop iterations: while
a frame step is scheduled (`pending`) and the engine is counting, the loop
fires `progress()` exactly once (the drift-corrected step condition is
eventually satisfied), which reschedules or ends via its own `continuance()`. -/
def run (cfg : Config) : Nat → CountdownData → CountdownData × List Event
  | 0, s => (s, [])
  | fuel + 1, s =>
      if s.counting ∧ s.pending then
        let p := progress cfg s
        let r := run cfg fuel p.1
        (r.1, p.2 ++ r.2)
      else (s, [])

/-- Performs `start()` from an idle, visible host followed by letting the scheduler run
to quiescence (up to `fuel` steps). -/
def startRun (cfg : Config) (fuel : Nat) (s : CountdownData) :
    CountdownData × List Event :=
  let p := start cfg Visibility.visible s
  let r := run cfg fuel p.1
  (r.1, p.2 ++ r.2)

/-- States reachable from the initial state by the engine's operations, at the
granularity of the source's synchronous function calls (each call, including
its nested calls such as `progress`'s trailing `continuance`, is one step). -/
inductive Reachable (cfg : Config) : CountdownData → Prop where
  | init : Reachable cfg initData
  | configure (nowv : Int) (vis : Visibility) {s : CountdownData} :
      Reachable cfg s → Reachable cfg (configure cfg nowv vis s).1
  | start (vis : Visibility) {s : CountdownData} :
      Reachable cfg s → Reachable cfg (start cfg vis s).1
  | tick {s : CountdownData} :
      Reachable cfg s → Reachable cfg (progress cfg s).1
  | cont {s : CountdownData} :
      Reachable cfg s → Reachable cfg (continuance cfg s).1
  | abort {s : CountdownData} :
      Reachable cfg s → Reachable cfg (abort cfg s).1
  | stop {s : CountdownData} :
      Reachable cfg s → Reachable cfg (endCountdown cfg s).1
  | resync (nowv : Int) {s : CountdownData} :
      Reachable cfg s → Reachable cfg (update nowv s)
  | pause {s : CountdownData} :
      Reachable cfg s → Reachable cfg (pause s)
  | visibility (vis : Visibility) (nowv : Int) {s : CountdownData} :
      Reachable cfg s → Reachable cfg (handleVisibilityChange cfg vis nowv s).1

/-! ### Breakdown calculator lemmas -/

theorem tmod_day_eq (tm : Int) (h : 0 ≤ tm) :
    Int.tmod tm MILLISECONDS_DAY = tm % 86400000 := by
  simp only [MILLISECONDS_DAY, MILLISECONDS_HOUR, MILLISECONDS_MINUTE, MILLISECONDS_SECOND]
  norm_num
  exact Int.tmod_eq_emod h (by norm_num)

theorem tmod_hour_eq (tm : Int) (h : 0 ≤ tm) :
    Int.tmod tm MILLISECONDS_HOUR = tm % 3600000 := by
  simp only [MILLISECONDS_HOUR, MILLISECONDS_MINUTE, MILLISECONDS_SECOND]
  norm_num
  exact Int.tmod_eq_emod h (by norm_num)

theorem tmod_minute_eq (tm : Int) (h : 0 ≤ tm) :
    Int.tmod tm MILLISECONDS_MINUTE = tm % 60000 := by
  simp only [MILLISECONDS_MINUTE, MILLISECONDS_SECOND]
  norm_num
  exact Int.tmod_eq_emod h (by norm_num)

theorem days_eq (tm : Int) (h : 0 ≤ tm) : days tm = tm / 86400000 := by
  simp only [days, MILLISECONDS_DAY, MILLISECONDS_HOUR, MILLISECONDS_MINUTE,
    MILLISECONDS_SECOND]
  norm_num
  exact Int.fdiv_eq_ediv tm (by norm_num)

theorem hours_eq (tm : Int) (h : 0 ≤ tm) : hours tm = tm % 86400000 / 3600000 := by
  simp only [hours]
  rw [tmod_day_eq tm h]
  simp only [MILLISECONDS_HOUR, MILLISECONDS_MINUTE, MILLISECONDS_SECOND]
  norm_num
  exact Int.fdiv_eq_ediv _ (by norm_num)

theorem minutes_eq (tm : Int) (h : 0 ≤ tm) : minutes tm = tm % 3600000 / 60000 := by
  simp only [minutes]
  rw [tmod_hour_eq tm h]
  simp only [MILLISECONDS_MINUTE, MILLISECONDS_SECOND]
  norm_num
  exact Int.fdiv_eq_ediv _ (by norm_num)

theorem seconds_eq (tm : Int) (h : 0 ≤ tm) : seconds tm = tm % 60000 / 1000 := by
  simp only [seconds]
  rw [tmod_minute_eq tm h]
  simp only [MILLISECONDS_SECOND]
  exact Int.fdiv_eq_ediv _ (by norm_num)

theorem milliseconds_eq (tm : Int) (h : 0 ≤ tm) : milliseconds tm = tm % 1000 := by
  simp only [milliseconds, MILLISECONDS_SECOND]
  exact Int.tmod_eq_emod h (by norm_num)

/-- C4: for every non-negative `remainingMs`, the five non-total breakdown
fields recombine exactly with their unit weights:
`days*86400000 + hours*3600000 + minutes*60000 + seconds*1000 + milliseconds
  = remainingMs`, each field computed independently from the same value by the
floor/mod formulas of the source's computed properties. -/
theorem breakdown_recombines (tm : Int) (h : 0 ≤ tm) :
    days tm * MILLISECONDS_DAY + hours tm * MILLISECONDS_HOUR
      + minutes tm * MILLISECONDS_MINUTE + seconds tm * MILLISECONDS_SECOND
      + milliseconds tm = tm := by
  rw [days_eq tm h, hours_eq tm h, minutes_eq tm h, seconds_eq tm h,
    milliseconds_eq tm h]
  simp only [MILLISECONDS_DAY, MILLISECONDS_HOUR, MILLISECONDS_MINUTE,
    MILLISECONDS_SECOND]
  norm_num
  omega

/-- C4 witness: the recombination identity evaluated at `remainingMs = 90125`. -/
theorem breakdown_recombines_witness :
    (0 : Int) ≤ 90125 ∧
      days 90125 * MILLISECONDS_DAY + hours 90125 * MILLISECONDS_HOUR
        + minutes 90125 * MILLISECONDS_MINUTE + seconds 90125 * MILLISECONDS_SECOND
        + milliseconds 90125 = 90125 :=
  ⟨by norm_num, breakdown_recombines 90125 (by norm_num)⟩

/-- C10: for every non-negative `remainingMs`, the derived unit fields are
bounded: `0 ≤ hours ≤ 23`, `0 ≤ minutes ≤ 59`, `0 ≤ seconds ≤ 59`,
`0 ≤ milliseconds ≤ 999`, and `0 ≤ days` (days itself is unbounded). -/
theorem breakdown_bounds (tm : Int) (h : 0 ≤ tm) :
    0 ≤ days tm ∧
    0 ≤ hours tm ∧ hours tm ≤ 23 ∧
    0 ≤ minutes tm ∧ minutes tm ≤ 59 ∧
    0 ≤ seconds tm ∧ seconds tm ≤ 59 ∧
    0 ≤ milliseconds tm ∧ milliseconds tm ≤ 999 := by
  rw [days_eq tm h, hours_eq tm h, minutes_eq tm h, seconds_eq tm h,
    milliseconds_eq tm h]
  omega

/-- C10 witness: the bounds evaluated at `remainingMs = 90125`. -/
theorem breakdown_bounds_witness :
    (0 : Int) ≤ 90125 ∧
      (0 ≤ days 90125 ∧
       0 ≤ hours 90125 ∧ hours 90125 ≤ 23 ∧
       0 ≤ minutes 90125 ∧ minutes 90125 ≤ 59 ∧
       0 ≤ seconds 90125 ∧ seconds 90125 ≤ 59 ∧
       0 ≤ milliseconds 90125 ∧ milliseconds 90125 ≤ 999) :=
  ⟨by norm_num, breakdown_bounds 90125 (by norm_num)⟩

/-! ### State-machine lemmas -/

theorem run_halt (cfg : Config) (fuel : Nat) (s : CountdownData)
    (h : s.counting = false ∨ s.pending = false) : run cfg fuel s = (s, []) := by
  cases fuel with
  | zero => rfl
  | succ n =>
      rcases h with h | h <;> simp [run, h]

theorem continuance_no_progress (cfg : Config) (s : CountdownData) (p : Int) :
    Event.progress p ∉ (continuance cfg s).2 := by
  simp only [continuance, endCountdown, pause]
  split_ifs <;> simp

/-- C5: a `progress()` step never emits a `progress` event with a
non-positive payload; the step that brings `totalMilliseconds` to exactly `0`
(i.e. from a counting state with `totalMilliseconds = interval`) leaves the
value at `0`, emits no `progress` event, and its trailing `continuance()`
(seeing `delay = min(0, interval) = 0` for `interval ≥ 0`) emits the sole
`end` event instead. -/
theorem progress_zero_step (cfg : Config) (s : CountdownData)
    (hc : s.counting = true) (ht : s.totalMilliseconds = cfg.interval) :
    (progress cfg s).1.totalMilliseconds = 0 ∧
    (progress cfg s).2 = (if cfg.emitEvents then [Event.ended] else []) ∧
    (∀ p : Int, Event.progress p ∉ (progress cfg s).2) ∧
    (0 ≤ cfg.interval → min (s.totalMilliseconds - cfg.interval) cfg.interval = 0) ∧
    (∀ (s' : CountdownData) (p : Int),
        Event.progress p ∈ (progress cfg s').2 → 0 < p) := by
  have h2 : (progress cfg s).2 = (if cfg.emitEvents then [Event.ended] else []) := by
    simp [progress, continuance, endCountdown, pause, hc, ht]
  refine ⟨?_, h2, ?_, fun hI => by omega, ?_⟩
  · simp [progress, continuance, endCountdown, pause, hc, ht]
  · intro p
    rw [h2]
    split <;> simp
  · intro s' p hp
    by_cases hc' : s'.counting = true
    · simp only [progress, hc', if_true] at hp
      rw [List.mem_append] at hp
      rcases hp with hp | hp
      · by_cases hev : cfg.emitEvents = true ∧ s'.totalMilliseconds - cfg.interval > 0
        · rw [if_pos hev] at hp
          simp only [List.mem_singleton, Event.progress.injEq] at hp
          omega
        · rw [if_neg hev] at hp
          simp at hp
      · exact absurd hp (continuance_no_progress cfg _ p)
    · simp [progress, hc'] at hp

/-- C5 witness: the zero-reaching step at `interval = 1000` from
`totalMilliseconds = 1000`. -/
theorem progress_zero_step_witness :
    (progress { autoStart := true, emitEvents := true, interval := 1000, time := 1000 } { counting := true, endTime := 0, totalMilliseconds := 1000, pending := true }).1.totalMilliseconds = 0 ∧
    (progress { autoStart := true, emitEvents := true, interval := 1000, time := 1000 } { counting := true, endTime := 0, totalMilliseconds := 1000, pending := true }).2 = [Event.ended] := by
  have h := progress_zero_step { autoStart := true, emitEvents := true, interval := 1000, time := 1000 } { counting := true, endTime := 0, totalMilliseconds := 1000, pending := true } rfl rfl
  exact ⟨h.1, by simpa using h.2.1⟩

/-- C7: `update()` (resync) while counting recomputes
`totalMilliseconds = max(0, endTime - now())` and is the identity when not
counting; in the spec's scenario (`time = 10000`, `interval = 1000`, start at
`now = 0`, `hidden` at `now = 2500`, `visible` at `now = 7500`) the value
immediately after resync is `2500`. -/
theorem update_resync (nowv : Int) (s : CountdownData) :
    (s.counting = true →
       (update nowv s).totalMilliseconds = max 0 (s.endTime - nowv)) ∧
    (s.counting = false → update nowv s = s) ∧
    ((update 7500 ((handleVisibilityChange { autoStart := true, emitEvents := true, interval := 1000, time := 10000 } Visibility.hidden 2500 ((configure { autoStart := true, emitEvents := true, interval := 1000, time := 10000 } 0 Visibility.visible initData).1)).1)).totalMilliseconds = 2500 ∧
     ((handleVisibilityChange { autoStart := true, emitEvents := true, interval := 1000, time := 10000 } Visibility.visible 7500 ((handleVisibilityChange { autoStart := true, emitEvents := true, interval := 1000, time := 10000 } Visibility.hidden 2500 ((configure { autoStart := true, emitEvents := true, interval := 1000, time := 10000 } 0 Visibility.visible initData).1)).1)).1).totalMilliseconds = 2500) := by
  refine ⟨fun hc => ?_, fun hc => ?_, by decide, by decide⟩
  · simp [update, hc]
  · simp [update, hc]

/-- C7 witness: the resync formula applied at a concrete counting state. -/
theorem update_resync_witness :
    (update 3 { counting := true, endTime := 10, totalMilliseconds := 8, pending := false }).totalMilliseconds = max 0 (10 - 3) :=
  (update_resync 3 { counting := true, endTime := 10, totalMilliseconds := 8, pending := false }).1 rfl

theorem start_tm (cfg : Config) (vis : Visibility) (s : CountdownData)
    (h : 0 < min s.totalMilliseconds cfg.interval ∨ s.totalMilliseconds = 0) :
    (start cfg vis s).1.totalMilliseconds = s.totalMilliseconds := by
  simp only [start, continuance, endCountdown, pause]
  split_ifs <;> simp_all <;> omega

theorem start_immediate_end (cfg : Config) (s : CountdownData)
    (hc : s.counting = false)
    (hmin : ¬ 0 < min s.totalMilliseconds cfg.interval) :
    start cfg Visibility.visible s =
      ({ s with counting := false, totalMilliseconds := 0, pending := false },
       (if cfg.emitEvents then [Event.start] else [])
         ++ (if cfg.emitEvents then [Event.ended] else [])) := by
  simp [start, continuance, endCountdown, pause, hc, hmin]

/-- C8: `abort()` while counting cancels the pending frame and returns to
idle with `totalMilliseconds` unchanged (not zeroed), emits `abort` (when
`emitEvents`) and never `end`; it is a no-op when already idle; and a
subsequent `start()` (with a positive interval, from the engine's
non-negative remaining value) resumes from the preserved remaining value. -/
theorem abort_preserves (cfg : Config) (s : CountdownData) (hc : s.counting = true) :
    (abort cfg s).1.totalMilliseconds = s.totalMilliseconds ∧
    (abort cfg s).1.counting = false ∧
    (abort cfg s).1.pending = false ∧
    (abort cfg s).2 = (if cfg.emitEvents then [Event.abort] else []) ∧
    Event.ended ∉ (abort cfg s).2 ∧
    (∀ s' : CountdownData, s'.counting = false → abort cfg s' = (s', [])) ∧
    (0 < cfg.interval → 0 ≤ s.totalMilliseconds → ∀ vis : Visibility,
       (start cfg vis (abort cfg s).1).1.totalMilliseconds = s.totalMilliseconds) := by
  refine ⟨?_, ?_, ?_, ?_, ?_, ?_, ?_⟩
  · simp [abort, pause, hc]
  · simp [abort, pause, hc]
  · simp [abort, pause, hc]
  · simp [abort, pause, hc]
  · simp only [abort, pause, hc, if_true]
    split <;> simp
  · intro s' hc'
    simp [abort, hc']
  · intro hI hnn vis
    have habort : (abort cfg s).1 = { s with counting := false, pending := false } := by
      simp [abort, pause, hc]
    rw [habort, start_tm cfg vis _ (by simp; omega)]

/-- C8 witness: aborting a counting state with 7000 ms left keeps 7000 ms,
and restarting resumes from 7000 ms. -/
theorem abort_preserves_witness :
    (abort { autoStart := true, emitEvents := true, interval := 1000, time := 10000 } { counting := true, endTime := 10000, totalMilliseconds := 7000, pending := true }).1.totalMilliseconds = 7000 ∧
    (start { autoStart := true, emitEvents := true, interval := 1000, time := 10000 } Visibility.visible (abort { autoStart := true, emitEvents := true, interval := 1000, time := 10000 } { counting := true, endTime := 10000, totalMilliseconds := 7000, pending := true }).1).1.totalMilliseconds = 7000 := by
  have h := abort_preserves { autoStart := true, emitEvents := true, interval := 1000, time := 10000 } { counting := true, endTime := 10000, totalMilliseconds := 7000, pending := true } rfl
  exact ⟨h.1, h.2.2.2.2.2.2 (by norm_num) (by norm_num) Visibility.visible⟩

/-- C9: with `interval = 0` (any `time ≥ 0`), and likewise with remaining
time `0` (any `interval ≥ 0`), a visible `start()` transitions directly to
`end`: the first `continuance()` computes `delay = min(totalMilliseconds,
interval) = 0` and calls `end()`, so the trace is `[start, end]` with zero
`progress` events, and the scheduler has nothing further to run. -/
theorem boundary_immediate_end (cfg : Config) (e D : Int) (fuel : Nat)
    (hE : cfg.emitEvents = true) :
    (cfg.interval = 0 → 0 ≤ D →
       startRun cfg fuel { counting := false, endTime := e, totalMilliseconds := D, pending := false } = ({ counting := false, endTime := e, totalMilliseconds := 0, pending := false }, [Event.start, Event.ended]) ∧
       min D cfg.interval = 0 ∧
       [Event.start, Event.ended].countP Event.isProgress = 0) ∧
    (0 ≤ cfg.interval →
       startRun cfg fuel { counting := false, endTime := e, totalMilliseconds := 0, pending := false } = ({ counting := false, endTime := e, totalMilliseconds := 0, pending := false }, [Event.start, Event.ended]) ∧
       min (0 : Int) cfg.interval = 0) := by
  constructor
  · intro hI hD
    refine ⟨?_, by omega, by simp [Event.isProgress]⟩
    simp only [startRun]
    rw [start_immediate_end cfg _ rfl (by simp <;> omega)]
    rw [run_halt cfg fuel _ (Or.inl rfl)]
    simp [hE]
  · intro hI
    refine ⟨?_, by omega⟩
    simp only [startRun]
    rw [start_immediate_end cfg _ rfl (by simp <;> omega)]
    rw [run_halt cfg fuel _ (Or.inl rfl)]
    simp [hE]

/-- C9 witness: `interval = 0, time = 5000` and `time = 0, interval = 1000`
both produce the trace `[start, end]`. -/
theorem boundary_immediate_end_witness :
    startRun { autoStart := true, emitEvents := true, interval := 0, time := 5000 } 3 { counting := false, endTime := 0, totalMilliseconds := 5000, pending := false } = ({ counting := false, endTime := 0, totalMilliseconds := 0, pending := false }, [Event.start, Event.ended]) ∧
    startRun { autoStart := true, emitEvents := true, interval := 1000, time := 0 } 3 { counting := false, endTime := 0, totalMilliseconds := 0, pending := false } = ({ counting := false, endTime := 0, totalMilliseconds := 0, pending := false }, [Event.start, Event.ended]) := by
  constructor
  · exact ((boundary_immediate_end { autoStart := true, emitEvents := true, interval := 0, time := 5000 } 0 5000 3 rfl).1 rfl (by norm_num)).1
  · exact ((boundary_immediate_end { autoStart := true, emitEvents := true, interval := 1000, time := 0 } 0 0 3 rfl).2 (by norm_num)).1

theorem continuance_endTime (cfg : Config) (s : CountdownData) :
    (continuance cfg s).1.endTime = s.endTime := by
  simp only [continuance, endCountdown, pause]
  split_ifs <;> simp

theorem start_endTime (cfg : Config) (vis : Visibility) (s : CountdownData) :
    (start cfg vis s).1.endTime = s.endTime := by
  simp only [start]
  split_ifs <;> simp [continuance_endTime]

/-- C2 counterexample: `start()` never assigns `endTime`.  Configure with
`time = 10000` at `now = 0` and `autoStart = false` (so `endTime = 10000`),
then call `start()` when the clock reads `5000`: were the claim true,
`endTime` would become `5000 + 10000 = 15000`, but the source's `start`
(lines 127-142) contains no assignment to `endTime` (only the `watchEffect`
does), so it stays `10000`. -/
theorem start_sets_endTime_cex :
    (start { autoStart := false, emitEvents := true, interval := 1000, time := 10000 } Visibility.visible ((configure { autoStart := false, emitEvents := true, interval := 1000, time := 10000 } 0 Visibility.visible initData).1)).1.endTime = 10000 ∧
    (start { autoStart := false, emitEvents := true, interval := 1000, time := 10000 } Visibility.visible ((configure { autoStart := false, emitEvents := true, interval := 1000, time := 10000 } 0 Visibility.visible initData).1)).1.totalMilliseconds = 10000 ∧
    (10000 : Int) ≠ 5000 + 10000 := by
  refine ⟨by decide, by decide, by decide⟩

/-- C2 (amended): `start()` is a no-op when already counting; from idle it
sets `counting`, emits `start` when `emitEvents`, engages the tick scheduler
(schedules a frame) only when the host is visible (and `min(totalMilliseconds,
interval) > 0`), and never modifies `endTime`; `endTime = now() + time` is
established by the configuration `watchEffect`, not by `start()`. -/
theorem start_spec (cfg : Config) (vis : Visibility) (s : CountdownData) :
    (s.counting = true → start cfg vis s = (s, [])) ∧
    (start cfg vis s).1.endTime = s.endTime ∧
    (s.counting = false → vis = Visibility.hidden →
       (start cfg vis s).1 = { s with counting := true } ∧
       (start cfg vis s).2 = (if cfg.emitEvents then [Event.start] else [])) ∧
    (s.counting = false → vis = Visibility.visible →
       0 < min s.totalMilliseconds cfg.interval →
       (start cfg vis s).1 = { s with counting := true, pending := true } ∧
       (start cfg vis s).2 = (if cfg.emitEvents then [Event.start] else [])) ∧
    (∀ nowv : Int, (configure cfg nowv vis s).1.endTime = nowv + cfg.time) := by
  refine ⟨?_, start_endTime cfg vis s, ?_, ?_, ?_⟩
  · intro hc
    simp [start, hc]
  · intro hc hv
    subst hv
    simp [start, hc]
  · intro hc hv hd
    subst hv
    constructor
    · simp [start, continuance, hc, hd]
    · simp [start, continuance, hc, hd]
  · intro nowv
    simp only [configure]
    split_ifs with ha
    · rw [start_endTime]
    · rfl

/-- C2 (amended) witness: a visible idle start with positive remaining time
and interval schedules a frame, emits `start`, and keeps `endTime`. -/
theorem start_spec_witness :
    (start { autoStart := true, emitEvents := true, interval := 1000, time := 5000 } Visibility.visible { counting := false, endTime := 5000, totalMilliseconds := 5000, pending := false }).1 = { counting := true, endTime := 5000, totalMilliseconds := 5000, pending := true } ∧
    (start { autoStart := true, emitEvents := true, interval := 1000, time := 5000 } Visibility.visible { counting := false, endTime := 5000, totalMilliseconds := 5000, pending := false }).2 = [Event.start] := by
  have h := (start_spec { autoStart := true, emitEvents := true, interval := 1000, time := 5000 } Visibility.visible { counting := false, endTime := 5000, totalMilliseconds := 5000, pending := false }).2.2.2.1 rfl rfl (by norm_num)
  exact ⟨h.1, by simpa using h.2⟩

/-- C6 counterexample: a configuration with `time = -1` (so
`time_validator` returns `false`) is not rejected: with `autoStart` and a
hidden host, the `watchEffect` assigns `totalMilliseconds = -1` and `start()`
puts the engine in the counting state.  Vue prop validators only log a
development-mode warning; nothing in the source throws or clamps. -/
theorem invalid_config_cex :
    (configure { autoStart := true, emitEvents := true, interval := 1000, time := -1 } 0 Visibility.hidden initData).1.counting = true ∧
    (configure { autoStart := true, emitEvents := true, interval := 1000, time := -1 } 0 Visibility.hidden initData).1.totalMilliseconds = -1 ∧
    time_validator (-1) = false := by
  refine ⟨by decide, by decide, by decide⟩

/-- C6 (amended): `durationMs < 0` or `intervalMs < 0` makes the
corresponding prop validator return `false`, but the configuration is not
rejected and the value is not clamped: the engine state takes the invalid
value unchanged and, with `autoStart` (host hidden), the engine enters the
counting state with those parameters. -/
theorem invalid_config_not_rejected (cfg : Config) (nowv : Int)
    (ha : cfg.autoStart = true) :
    (cfg.time < 0 →
       (configure cfg nowv Visibility.hidden initData).1.counting = true ∧
       (configure cfg nowv Visibility.hidden initData).1.totalMilliseconds = cfg.time ∧
       time_validator cfg.time = false) ∧
    (cfg.interval < 0 →
       (configure cfg nowv Visibility.hidden initData).1.counting = true ∧
       interval_validator cfg.interval = false) := by
  have hstate : (configure cfg nowv Visibility.hidden initData).1 = { counting := true, endTime := nowv + cfg.time, totalMilliseconds := cfg.time, pending := false } := by
    simp [configure, start, initData, ha]
  constructor
  · intro ht
    refine ⟨by rw [hstate], by rw [hstate], ?_⟩
    simp only [time_validator, decide_eq_false_iff_not]
    omega
  · intro hi
    refine ⟨by rw [hstate], ?_⟩
    simp only [interval_validator, decide_eq_false_iff_not]
    omega

/-- C6 (amended) witness: `time = -1` under `autoStart` while hidden leaves a
counting engine holding `-1`, and `interval = -5` is likewise flagged but
used. -/
theorem invalid_config_not_rejected_witness :
    ((configure { autoStart := true, emitEvents := true, interval := -5, time := -1 } 0 Visibility.hidden initData).1.counting = true ∧
     (configure { autoStart := true, emitEvents := true, interval := -5, time := -1 } 0 Visibility.hidden initData).1.totalMilliseconds = -1 ∧
     time_validator (-1) = false) ∧
    ((configure { autoStart := true, emitEvents := true, interval := -5, time := -1 } 0 Visibility.hidden initData).1.counting = true ∧
     interval_validator (-5) = false) := by
  have h := invalid_config_not_rejected { autoStart := true, emitEvents := true, interval := -5, time := -1 } 0 rfl
  exact ⟨h.1 (by norm_num), h.2 (by norm_num)⟩

/-! ### The remaining-time invariant -/

theorem continuance_nonneg (cfg : Config) (s : CountdownData)
    (h : s.counting = true ∨ 0 ≤ s.totalMilliseconds) :
    0 ≤ (continuance cfg s).1.totalMilliseconds := by
  simp only [continuance, endCountdown, pause]
  split_ifs <;> simp_all <;> omega

theorem update_nonneg (nowv : Int) (s : CountdownData)
    (h : 0 ≤ s.totalMilliseconds) : 0 ≤ (update nowv s).totalMilliseconds := by
  simp only [update]
  split_ifs <;> simp_all <;> omega

theorem progress_nonneg (cfg : Config) (s : CountdownData)
    (h : 0 ≤ s.totalMilliseconds) :
    0 ≤ (progress cfg s).1.totalMilliseconds := by
  by_cases hc : s.counting = true
  · have hcont : 0 ≤ (continuance cfg { s with totalMilliseconds := s.totalMilliseconds - cfg.interval }).1.totalMilliseconds :=
      continuance_nonneg cfg _ (Or.inl (by simpa using hc))
    simpa [progress, hc] using hcont
  · simpa [progress, hc] using h

theorem start_nonneg (cfg : Config) (vis : Visibility) (s : CountdownData)
    (h : 0 ≤ s.totalMilliseconds) :
    0 ≤ (start cfg vis s).1.totalMilliseconds := by
  by_cases hc : s.counting = true
  · simpa [start, hc] using h
  · rcases vis with _ | _
    · have hcont : 0 ≤ (continuance cfg { s with counting := true }).1.totalMilliseconds :=
        continuance_nonneg cfg _ (Or.inl (by simp))
      simpa [start, hc] using hcont
    · simpa [start, hc] using h

theorem endCountdown_nonneg (cfg : Config) (s : CountdownData)
    (h : 0 ≤ s.totalMilliseconds) :
    0 ≤ (endCountdown cfg s).1.totalMilliseconds := by
  simp only [endCountdown, pause]
  split_ifs <;> simp_all

theorem abort_nonneg (cfg : Config) (s : CountdownData)
    (h : 0 ≤ s.totalMilliseconds) :
    0 ≤ (abort cfg s).1.totalMilliseconds := by
  simp only [abort, pause]
  split_ifs <;> simp_all

theorem configure_nonneg (cfg : Config) (nowv : Int) (vis : Visibility)
    (s : CountdownData) (hT : 0 ≤ cfg.time) :
    0 ≤ (configure cfg nowv vis s).1.totalMilliseconds := by
  simp only [configure]
  split_ifs with ha
  · exact start_nonneg cfg vis _ (by simpa using hT)
  · simpa using hT

theorem handleVisibility_nonneg (cfg : Config) (vis : Visibility) (nowv : Int)
    (s : CountdownData) (h : 0 ≤ s.totalMilliseconds) :
    0 ≤ (handleVisibilityChange cfg vis nowv s).1.totalMilliseconds := by
  rcases vis with _ | _
  · exact continuance_nonneg cfg _ (Or.inr (update_nonneg nowv s h))
  · simpa [handleVisibilityChange, pause] using h

/-- C3: in every state reachable by the engine's operations from the initial
state — configuration with a non-negative `time`, `start`, tick steps
(`progress`, each step including its trailing `continuance`), `continuance`,
`abort`, `end`, resync (`update`), `pause`, and the visibility handler — the
remaining time satisfies `0 ≤ totalMilliseconds`: no operation, taken as the
source's synchronous function call, leaves it negative. -/
theorem remaining_nonneg (cfg : Config) (hT : 0 ≤ cfg.time)
    (s : CountdownData) (hs : Reachable cfg s) : 0 ≤ s.totalMilliseconds := by
  induction hs with
  | init => simp [initData]
  | configure nowv vis h ih => exact configure_nonneg cfg nowv vis _ hT
  | start vis h ih => exact start_nonneg cfg vis _ ih
  | tick h ih => exact progress_nonneg cfg _ ih
  | cont h ih => exact continuance_nonneg cfg _ (Or.inr ih)
  | abort h ih => exact abort_nonneg cfg _ ih
  | stop h ih => exact endCountdown_nonneg cfg _ ih
  | resync nowv h ih => exact update_nonneg nowv _ ih
  | pause h ih => simpa [pause] using ih
  | visibility vis nowv h ih => exact handleVisibility_nonneg cfg vis nowv _ ih

/-- C3 witness: the invariant at a concrete reachable state — after
configuring (`time = 1000`, `autoStart`, visible), one tick step, and an
abort, the remaining value is non-negative. -/
theorem remaining_nonneg_witness :
    (0 : Int) ≤ ({ autoStart := true, emitEvents := true, interval := 400, time := 1000 } : Config).time ∧
    0 ≤ ((abort { autoStart := true, emitEvents := true, interval := 400, time := 1000 } ((progress { autoStart := true, emitEvents := true, interval := 400, time := 1000 } ((configure { autoStart := true, emitEvents := true, interval := 400, time := 1000 } 0 Visibility.visible initData).1)).1)).1).totalMilliseconds :=
  ⟨by norm_num,
   remaining_nonneg { autoStart := true, emitEvents := true, interval := 400, time := 1000 } (by norm_num) _
     (Reachable.abort (Reachable.tick (Reachable.configure 0 Visibility.visible Reachable.init)))⟩

/-! ### The complete run trace -/

theorem progress_step_mid (cfg : Config) (e T : Int) (hE : cfg.emitEvents = true)
    (hI : 0 < cfg.interval) (hpos : 0 < T - cfg.interval) :
    progress cfg { counting := true, endTime := e, totalMilliseconds := T, pending := true } =
      ({ counting := true, endTime := e, totalMilliseconds := T - cfg.interval, pending := true },
       [Event.progress (T - cfg.interval)]) := by
  have hmin : 0 < min (T - cfg.interval) cfg.interval := by omega
  simp [progress, continuance, endCountdown, pause, hE, hpos, hmin]

theorem progress_step_last (cfg : Config) (e T : Int) (hE : cfg.emitEvents = true)
    (hlast : T - cfg.interval ≤ 0) :
    progress cfg { counting := true, endTime := e, totalMilliseconds := T, pending := true } =
      ({ counting := false, endTime := e, totalMilliseconds := 0, pending := false },
       [Event.ended]) := by
  have hnp : ¬ 0 < T - cfg.interval := by omega
  have hmin : ¬ 0 < min (T - cfg.interval) cfg.interval := by omega
  simp [progress, continuance, endCountdown, pause, hE, hnp, hmin]

theorem run_trace (cfg : Config) (hE : cfg.emitEvents = true) (hI : 0 < cfg.interval) :
    ∀ (fuel : Nat) (e T : Int), 0 < T → T ≤ (fuel : Int) * cfg.interval →
      run cfg fuel { counting := true, endTime := e, totalMilliseconds := T, pending := true } =
        ({ counting := false, endTime := e, totalMilliseconds := 0, pending := false },
         (List.range ((T - 1) / cfg.interval).toNat).map
             (fun (k : Nat) => Event.progress (T - ((k : Int) + 1) * cfg.interval))
           ++ [Event.ended]) := by
  intro fuel
  induction fuel with
  | zero =>
      intro e T hT hf
      exfalso
      simp only [Nat.cast_zero, zero_mul] at hf
      omega
  | succ n ih =>
      intro e T hT hf
      have hrun : run cfg (n + 1) { counting := true, endTime := e, totalMilliseconds := T, pending := true } =
          ((run cfg n (progress cfg { counting := true, endTime := e, totalMilliseconds := T, pending := true }).1).1,
           (progress cfg { counting := true, endTime := e, totalMilliseconds := T, pending := true }).2
             ++ (run cfg n (progress cfg { counting := true, endTime := e, totalMilliseconds := T, pending := true }).1).2) := by
        simp [run]
      by_cases hpos : 0 < T - cfg.interval
      · have hf' : T - cfg.interval ≤ (n : Int) * cfg.interval := by
          have hcast : ((n + 1 : Nat) : Int) * cfg.interval = (n : Int) * cfg.interval + cfg.interval := by
            push_cast
            ring
          rw [hcast] at hf
          omega
        rw [hrun, progress_step_mid cfg e T hE hI hpos]
        rw [ih e (T - cfg.interval) hpos hf']
        have hNn : ((T - 1) / cfg.interval).toNat = ((T - cfg.interval - 1) / cfg.interval).toNat + 1 := by
          have h1 : (T - 1) / cfg.interval = (T - cfg.interval - 1) / cfg.interval + 1 := by
            have h0 := Int.add_mul_ediv_right (T - cfg.interval - 1) 1 (by omega : cfg.interval ≠ 0)
            have harg : T - cfg.interval - 1 + 1 * cfg.interval = T - 1 := by ring
            rw [harg] at h0
            simpa using h0
          have h2 : 0 ≤ (T - cfg.interval - 1) / cfg.interval := Int.ediv_nonneg (by omega) (by omega)
          omega
        have hlist : [Event.progress (T - cfg.interval)]
              ++ ((List.range ((T - cfg.interval - 1) / cfg.interval).toNat).map
                    (fun (k : Nat) => Event.progress (T - cfg.interval - ((k : Int) + 1) * cfg.interval))
                  ++ [Event.ended]) =
            (List.range ((T - 1) / cfg.interval).toNat).map
                (fun (k : Nat) => Event.progress (T - ((k : Int) + 1) * cfg.interval))
              ++ [Event.ended] := by
          rw [hNn, List.range_succ_eq_map]
          simp only [List.map_cons, List.map_map, List.cons_append, List.singleton_append, List.nil_append]
          congr 1
          · congr 1
            push_cast
            ring
          · rw [List.append_left_inj]
            apply List.map_congr_left
            intro k hk
            simp only [Function.comp]
            congr 1
            push_cast
            ring
        rw [hlist]
      · rw [hrun, progress_step_last cfg e T hE (by omega)]
        rw [run_halt cfg n _ (Or.inl rfl)]
        have hN : ((T - 1) / cfg.interval).toNat = 0 := by
          have h0 : (T - 1) / cfg.interval = 0 :=
            Int.ediv_eq_zero_of_lt (by omega) (by omega)
          omega
        simp [hN]

/-- C1 counterexample: with `durationMs = intervalMs = 1000`, a full run from
`start()` emits 0 `progress` events (the step reaching `0` is suppressed),
but the claim predicts `floor(1000 / 1000) = 1`. -/
theorem countdown_count_cex :
    (startRun { autoStart := true, emitEvents := true, interval := 1000, time := 1000 } 2 { counting := false, endTime := 1000, totalMilliseconds := 1000, pending := false }).2.countP Event.isProgress = 0 ∧
    (1000 : Int) / 1000 = 1 := by
  refine ⟨by decide, by decide⟩

/-- C1 (amended): for `durationMs = D ≥ 0` and `intervalMs = I > 0`, running
the engine from a visible `start()` to completion emits exactly
`⌊(D - 1) / I⌋` (taken as `0` when `D = 0`) `progress` events — that is,
`⌈D / I⌉ - 1` rather than the claimed `⌊D / I⌋`, the two differing exactly
when `I` divides `D > 0` — whose payloads `D - I, D - 2I, …` are strictly
decreasing, each the original duration minus a positive multiple of `I`,
followed by exactly one `end` event; afterwards the engine is idle and no
operation emits further events until a subsequent `start()`. -/
theorem countdown_trace (cfg : Config) (e D : Int) (fuel : Nat)
    (hE : cfg.emitEvents = true) (hD : 0 ≤ D) (hI : 0 < cfg.interval)
    (hfuel : D ≤ (fuel : Int) * cfg.interval) :
    startRun cfg fuel { counting := false, endTime := e, totalMilliseconds := D, pending := false } =
      ({ counting := false, endTime := e, totalMilliseconds := 0, pending := false },
       Event.start ::
         ((List.range ((D - 1) / cfg.interval).toNat).map
             (fun (k : Nat) => Event.progress (D - ((k : Int) + 1) * cfg.interval))
           ++ [Event.ended])) ∧
    (startRun cfg fuel { counting := false, endTime := e, totalMilliseconds := D, pending := false }).2.countP Event.isProgress = ((D - 1) / cfg.interval).toNat ∧
    (∀ j k : Nat, j < k →
       D - ((k : Int) + 1) * cfg.interval < D - ((j : Int) + 1) * cfg.interval) ∧
    (∀ s' : CountdownData, s'.counting = false →
       progress cfg s' = (s', []) ∧ continuance cfg s' = (s', []) ∧
       endCountdown cfg s' = (s', []) ∧ abort cfg s' = (s', []) ∧
       run cfg fuel s' = (s', [])) := by
  have hmain : startRun cfg fuel { counting := false, endTime := e, totalMilliseconds := D, pending := false } =
      ({ counting := false, endTime := e, totalMilliseconds := 0, pending := false },
       Event.start ::
         ((List.range ((D - 1) / cfg.interval).toNat).map
             (fun (k : Nat) => Event.progress (D - ((k : Int) + 1) * cfg.interval))
           ++ [Event.ended])) := by
    by_cases hD0 : 0 < D
    · have hmin : 0 < min D cfg.interval := by omega
      have hstart : start cfg Visibility.visible { counting := false, endTime := e, totalMilliseconds := D, pending := false } =
          ({ counting := true, endTime := e, totalMilliseconds := D, pending := true }, [Event.start]) := by
        simp [start, continuance, endCountdown, pause, hE, hmin]
      simp only [startRun]
      rw [hstart]
      simp only
      rw [run_trace cfg hE hI fuel e D hD0 hfuel]
      simp
    · have hD' : D = 0 := by omega
      subst hD'
      simp only [startRun]
      rw [start_immediate_end cfg _ rfl (by simp <;> omega)]
      simp only
      rw [run_halt cfg fuel _ (Or.inl rfl)]
      have hneg : (-1 : Int) / cfg.interval < 0 := Int.ediv_neg' (by norm_num) hI
      simp [hE, hneg.le]
  refine ⟨hmain, ?_, ?_, ?_⟩
  · rw [congrArg Prod.snd hmain]
    simp only [List.countP_cons, List.countP_append, List.countP_map]
    have hconst : (Event.isProgress ∘ fun (k : Nat) => Event.progress (D - ((k : Int) + 1) * cfg.interval)) = fun _ => true := by
      funext k
      rfl
    rw [hconst]
    simp [Event.isProgress]
  · intro j k hjk
    have hmul : ((j : Int) + 1) * cfg.interval < ((k : Int) + 1) * cfg.interval := by
      apply mul_lt_mul_of_pos_right _ hI
      have : (j : Int) < (k : Int) := by exact_mod_cast hjk
      omega
    omega
  · intro s' hc'
    exact ⟨by simp [progress, hc'], by simp [continuance, hc'],
      by simp [endCountdown, hc'], by simp [abort, hc'],
      run_halt cfg fuel s' (Or.inl hc')⟩

/-- C1 (amended) witness: `D = 2500`, `I = 1000` yields the trace
`[start, progress 1500, progress 500, end]` — 2 progress events,
`⌊(2500 - 1) / 1000⌋ = 2`. -/
theorem countdown_trace_witness :
    startRun { autoStart := true, emitEvents := true, interval := 1000, time := 2500 } 3 { counting := false, endTime := 2500, totalMilliseconds := 2500, pending := false } = ({ counting := false, endTime := 2500, totalMilliseconds := 0, pending := false }, [Event.start, Event.progress 1500, Event.progress 500, Event.ended]) := by
  have h := (countdown_trace { autoStart := true, emitEvents := true, interval := 1000, time := 2500 } 2500 2500 3 rfl (by norm_num) (by norm_num) (by norm_num)).1
  exact h.trans (by decide)
